import Mathlib

/-!
Verification of the retrieval core of the medical-guideline-validation
repository, a shallow embedding of `src/services/guidelines_service.py`.

Python dictionaries holding heterogeneous metadata values are embedded by
the `PyVal` type; document metadata is embedded as a record of the three
keys the service reads (`source_file`, `page`, `specialty`), each optional.
The external Chroma vector store and the filesystem are embedded as
explicit parameters (`VectorStore`, `Env`): the store is a list of stored
entries together with a `similarity_search` function that may fail
(Python exceptions are embedded as `Except.error`).
-/

/-- A Python value as it appears in the metadata / result dictionaries:
either `None`, a string, or an integer. -/
inductive PyVal : Type where
  | none : PyVal
  | str : String → PyVal
  | int : Int → PyVal
deriving DecidableEq, Repr

/-- The metadata keys of a loaded document that the service reads.
A `Option.none` field embeds absence of the key in the Python dict. -/
structure Metadata : Type where
  source_file : Option String
  page : Option Int
  specialty : Option String
deriving DecidableEq, Repr

/-- A LangChain `Document`: page content plus metadata. -/
structure Document : Type where
  page_content : String
  metadata : Metadata
deriving DecidableEq, Repr

/-- One entry of the list returned by `search_guidelines`
(the dict built at lines 162-170 of `guidelines_service.py`). -/
structure ResultEntry : Type where
  content : String
  source : PyVal
  page : PyVal
  specialty : PyVal
deriving DecidableEq, Repr

/-- The dict comprehension of `search_guidelines`:
`content` is the page content, `source` is `metadata.get("source_file")`
(so Python `None` when absent), `page` is `metadata.get("page", "N/A")`,
and `specialty` is `metadata.get("specialty", "general")`. -/
def toResultEntry (d : Document) : ResultEntry :=
  { content := d.page_content
  , source := match d.metadata.source_file with
      | Option.some s => PyVal.str s
      | Option.none => PyVal.none
  , page := match d.metadata.page with
      | Option.some n => PyVal.int n
      | Option.none => PyVal.str "N/A"
  , specialty := match d.metadata.specialty with
      | Option.some s => PyVal.str s
      | Option.none => PyVal.str "general" }

/-- Python's `str.lower` (character-wise ASCII lower-casing, which is all
the specialty matching exercises). -/
def lowerString (s : String) : String :=
  String.mk (s.toList.map Char.toLower)

/-- Splitting a character list on the path separator. -/
def splitSlashAux : List Char → List Char → List String
  | [], acc => [String.mk acc.reverse]
  | c :: cs, acc =>
    if c = '/' then String.mk acc.reverse :: splitSlashAux cs []
    else splitSlashAux cs (c :: acc)

/-- Python's `str.endswith` (an exact, case-sensitive suffix test). -/
def strEndsWith (s t : String) : Bool :=
  t.toList.isSuffixOf s.toList

/-- The closed specialty set of `_get_specialty_from_path`. -/
def specialties : List String :=
  ["cardiology", "neurology", "surgery", "pediatrics",
   "oncology", "emergency", "general", "infectious",
   "pulmonary", "respiratory", "icu", "critical"]

/-- `Path(filepath).parts`, restricted to the segments that can match a
specialty: splitting on the separator and dropping empty segments agrees
with `pathlib` on every segment other than a root `"/"` part, and a root
part never matches a specialty name. -/
def pathParts (s : String) : List String :=
  (splitSlashAux s.toList []).filter (fun p => p ≠ "")

/-- `GuidelinesService._get_specialty_from_path`: scan the path's parts in
order, return the first whose lower-casing is in the specialty set
(lower-cased), else `"general"`. -/
def get_specialty_from_path (filepath : String) : String :=
  match (pathParts filepath).find? (fun p => specialties.contains (lowerString p)) with
  | Option.some p => lowerString p
  | Option.none => "general"

/-- The external Chroma vector store: its stored entries, and its
`similarity_search` taking a query, `k`, and an optional specialty filter
(the `filter={"specialty": s}` argument); it may raise, embedded as
`Except.error`. -/
structure VectorStore : Type where
  entries : List Document
  similarity_search : String → Nat → Option String → Except String (List Document)

/-- The HuggingFace embeddings configuration loaded by `initialize`. -/
structure Embeddings : Type where
  model_name : String
  device : String
deriving DecidableEq, Repr

/-- The embeddings object built at lines 55-58. -/
def hfEmbeddings : Embeddings :=
  { model_name := "sentence-transformers/all-MiniLM-L6-v2", device := "cpu" }

/-- The mutable state of `GuidelinesService` (constructor, lines 34-40). -/
structure GuidelinesService : Type where
  embeddings : Option Embeddings
  vectorstore : Option VectorStore
  initialized : Bool
  rag_available : Bool
  guidelines_dir : String
  vector_store_path : String

/-- A freshly constructed `GuidelinesService()`; `rag` is the module-level
`RAG_AVAILABLE` flag (whether the optional LangChain import succeeded). -/
def mkService (rag : Bool) : GuidelinesService :=
  { embeddings := Option.none
  , vectorstore := Option.none
  , initialized := false
  , rag_available := rag
  , guidelines_dir := "data/guidelines"
  , vector_store_path := "./vector_store_guidelines" }

/-- Python truthiness of the `Optional[str]` filter argument:
`None` and the empty string are falsy. -/
def isTruthy : Option String → Bool
  | Option.none => false
  | Option.some s => s != ""

/-- The body of the `try` block of `search_guidelines` (lines 150-160): if
a truthy specialty filter is given, run the filtered search and, when it
returns the (falsy) empty list, retry unfiltered; otherwise search
unfiltered. An `Except.error` is an exception escaping the block. -/
def search_body (vs : VectorStore) (q : String) (k : Nat) (fs : Option String) :
    Except String (List Document) :=
  if isTruthy fs then
    match vs.similarity_search q k fs with
    | Except.ok [] => vs.similarity_search q k Option.none
    | r => r
  else
    vs.similarity_search q k Option.none

/-- `GuidelinesService.search_guidelines` (lines 139-173): empty list when
no vector store is loaded; otherwise the `try` body's documents mapped to
result dicts, with any exception caught and converted to the empty list.
The `Except` return type records that the function itself may only return
normally. -/
def search_guidelines (svc : GuidelinesService) (q : String) (k : Nat)
    (fs : Option String) : Except String (List ResultEntry) :=
  match svc.vectorstore with
  | Option.none => Except.ok []
  | Option.some vs =>
    match search_body vs q k fs with
    | Except.ok docs => Except.ok (docs.map toResultEntry)
    | Except.error _ => Except.ok []

/-- A file found under the guidelines directory: its full path (as given
to `_get_specialty_from_path`) and its basename (`file.name`). -/
structure FileEntry : Type where
  path : String
  name : String
deriving DecidableEq, Repr

/-- The last index of a dot in a character list, if any. -/
def lastDotIdx (cs : List Char) : Option Nat :=
  ((List.range cs.length).filter (fun i => cs.get? i = Option.some '.')).getLast?

/-- `pathlib`'s `suffix` of a file name: the substring from the last dot,
provided the dot is neither the first nor the last character, else `""`. -/
def fileSuffix (name : String) : String :=
  let cs := name.toList
  match lastDotIdx cs with
  | Option.some i =>
    if 0 < i ∧ i + 1 < cs.length then String.mk (cs.drop i) else ""
  | Option.none => ""

/-- The external world of `initialize` / `_load_guidelines`: whether a
persisted index exists at the vector-store path, the files enumerated by
`rglob` (equally, `os.walk`) under the guidelines directory, the per-file
loader call `loader.load()` (which may raise), the `Chroma(...)` open of
the persist directory, the chunker, and `Chroma.from_documents`. -/
structure Env : Type where
  vector_store_exists : Bool
  files : List FileEntry
  load_file : FileEntry → Except String (List Document)
  chroma_open : VectorStore
  chroma_from_documents : List Document → VectorStore
  split_documents : List Document → List Document

/-- The tagging loop of `_load_guidelines` (lines 91-93): set
`metadata["source_file"]` to the basename and `metadata["specialty"]`
from the path, keeping the loader-provided page. -/
def tagDocs (f : FileEntry) (docs : List Document) : List Document :=
  docs.map (fun d =>
    { d with metadata :=
      { d.metadata with
        source_file := Option.some f.name
      , specialty := Option.some (get_specialty_from_path f.path) } })

/-- The ingestion loop of `_load_guidelines` (lines 82-95): files whose
suffix lower-cases to `.pdf` or `.txt` are loaded and tagged, other files
are skipped. There is no per-file exception handler: a failing
`loader.load()` propagates and aborts the whole loop. -/
def loadDocs (env : Env) : List FileEntry → Except String (List Document)
  | [] => Except.ok []
  | f :: rest =>
    if lowerString (fileSuffix f.name) = ".pdf" ∨ lowerString (fileSuffix f.name) = ".txt" then
      match env.load_file f with
      | Except.error e => Except.error e
      | Except.ok docs =>
        match loadDocs env rest with
        | Except.error e => Except.error e
        | Except.ok ds => Except.ok (tagDocs f docs ++ ds)
    else
      loadDocs env rest

/-- `GuidelinesService._load_guidelines` (lines 68-118): when a persisted
index exists at the vector-store path, open it and return without reading
any source file; otherwise ingest, and build the store from the chunks of
the loaded documents (an empty ingestion opens an empty store the same
way). -/
def load_guidelines (env : Env) (svc : GuidelinesService) :
    Except String GuidelinesService :=
  if env.vector_store_exists then
    Except.ok { svc with vectorstore := Option.some env.chroma_open }
  else
    match loadDocs env env.files with
    | Except.error e => Except.error e
    | Except.ok docs =>
      if docs.isEmpty then
        Except.ok { svc with vectorstore := Option.some env.chroma_open }
      else
        let built := env.chroma_from_documents (env.split_documents docs)
        Except.ok { svc with vectorstore := Option.some built }

/-- `GuidelinesService.initialize` (lines 45-63): return at once when
already initialized; when the optional dependency is unavailable just set
the flag; otherwise load the embeddings, build-or-load the index, and set
the flag. -/
def initService (env : Env) (svc : GuidelinesService) :
    Except String GuidelinesService :=
  if svc.initialized then
    Except.ok svc
  else if svc.rag_available = false then
    Except.ok { svc with initialized := true }
  else
    match load_guidelines env { svc with embeddings := Option.some hfEmbeddings } with
    | Except.error e => Except.error e
    | Except.ok svc2 => Except.ok { svc2 with initialized := true }

/-- The keys of the `patient_context` dict that
`get_protocol_recommendation` reads: an optional `age` and a possibly
absent-or-empty list of `conditions` (an empty list embeds both an absent
key and the falsy empty Python list). -/
structure PatientContext : Type where
  age : Option Int
  conditions : List String
deriving DecidableEq, Repr

/-- The query construction of `get_protocol_recommendation` (lines
188-194): `condition` plus `" treatment protocol guideline"`, then
`" elderly"` when `patient_context.get("age", 0) > 65`, then the joined
conditions when that list is truthy; a falsy (`None` or empty)
`patient_context` adds nothing. -/
def build_query (condition : String) (pc : Option PatientContext) : String :=
  let q := condition ++ " treatment protocol guideline"
  match pc with
  | Option.none => q
  | Option.some p =>
    let q1 := if 65 < p.age.getD 0 then q ++ " elderly" else q
    if p.conditions.isEmpty then q1
    else q1 ++ " " ++ String.intercalate " " p.conditions

/-- Rendering of a `PyVal` inside an f-string. -/
def renderPyVal : PyVal → String
  | PyVal.none => "None"
  | PyVal.str s => s
  | PyVal.int n => toString n

/-- Python's `repr` of a list of strings, as printed by an f-string. -/
def renderStrList (l : List String) : String :=
  "[" ++ String.intercalate ", " (l.map (fun s => "\x27" ++ s ++ "\x27")) ++ "]"

/-- The printable items of the `patient_context` dict, in the order the
record tracks them: the `age` key when present, then the `conditions` key
when present and non-empty. -/
def pcItems (p : PatientContext) : List (String × String) :=
  (match p.age with
   | Option.some a => [("age", toString a)]
   | Option.none => []) ++
  (if p.conditions.isEmpty then [] else [("conditions", renderStrList p.conditions)])

/-- One numbered block of the formatted recommendation (lines 210-212):
source and specialty tag, then the first 500 characters of content,
stripped, and a rule. -/
def formatEntry (i : Nat) (g : ResultEntry) : String :=
  "**" ++ toString i ++ ". " ++ renderPyVal g.source ++ "** ["
    ++ renderPyVal g.specialty ++ "]\n"
    ++ (g.content.take 500).trim ++ "\n\n---\n\n"

/-- The formatted text of the found branch of
`get_protocol_recommendation` (lines 201-212). -/
def formatRecommendation (condition : String) (pc : Option PatientContext)
    (gs : List ResultEntry) : String :=
  let t0 := "📋 **Clinical Guidelines for: " ++ condition ++ "**\n\n"
  let t1 := match pc with
    | Option.none => t0
    | Option.some p =>
      if (pcItems p).isEmpty then t0
      else t0 ++ "**Patient Context:**\n"
        ++ String.join ((pcItems p).map (fun kv => "• " ++ kv.1 ++ ": " ++ kv.2 ++ "\n"))
        ++ "\n"
  t1 ++ "**Relevant Guidelines:**\n\n"
    ++ String.join (gs.enum.map (fun pr => formatEntry (pr.1 + 1) pr.2))

/-- `GuidelinesService.get_protocol_recommendation` (lines 178-214):
self-initialize when needed, build the query, search with `k = 3`, and
return either the no-guidelines message with an empty list or the
formatted text with the raw results. The returned service is the
(possibly initialized) post-state of `self`. -/
def get_protocol_recommendation (env : Env) (svc : GuidelinesService)
    (condition : String) (patient_context : Option PatientContext)
    (specialty : Option String) :
    Except String (GuidelinesService × String × List ResultEntry) :=
  let step : Except String GuidelinesService :=
    if svc.initialized then Except.ok svc else initService env svc
  match step with
  | Except.error e => Except.error e
  | Except.ok svc1 =>
    let query := build_query condition patient_context
    match search_guidelines svc1 query 3 specialty with
    | Except.error e => Except.error e
    | Except.ok guidelines =>
      if guidelines.isEmpty then
        Except.ok (svc1, "No guidelines found for \x27" ++ condition ++ "\x27.", [])
      else
        Except.ok (svc1, formatRecommendation condition patient_context guidelines, guidelines)

/-- The return value of `get_statistics`: the bare `{"status": "empty"}`
dict, or the active dict with total, specialty list and per-specialty
counts. -/
inductive StatsResult : Type where
  | empty : StatsResult
  | active : Nat → List String → List (String × Nat) → StatsResult
deriving DecidableEq, Repr

/-- `files.setdefault(spec, []).append(f)`: append to the group of `spec`,
creating it at the end in first-insertion order. -/
def addToGroups (groups : List (String × List String)) (spec : String)
    (fname : String) : List (String × List String) :=
  if groups.any (fun g => g.1 = spec) then
    groups.map (fun g => if g.1 = spec then (g.1, g.2 ++ [fname]) else g)
  else
    groups ++ [(spec, [fname])]

/-- The grouping loop of `get_statistics` (lines 223-228): only basenames
ending in the exact strings `".pdf"` or `".txt"` (a case-sensitive
`str.endswith`) are counted, grouped by the specialty inferred from the
joined path. -/
def statsGroups (files : List FileEntry) : List (String × List String) :=
  files.foldl
    (fun gs f =>
      if strEndsWith f.name ".pdf" ∨ strEndsWith f.name ".txt" then
        addToGroups gs (get_specialty_from_path f.path) f.name
      else gs)
    []

/-- `GuidelinesService.get_statistics` (lines 219-235). -/
def get_statistics (env : Env) (svc : GuidelinesService) : StatsResult :=
  match svc.vectorstore with
  | Option.none => StatsResult.empty
  | Option.some _ =>
    let groups := statsGroups env.files
    StatsResult.active
      (groups.foldl (fun n g => n + g.2.length) 0)
      (groups.map (fun g => g.1))
      (groups.map (fun g => (g.1, g.2.length)))

/-- First-match characterization of `List.find?`: if the element at index
`i` satisfies the predicate and every earlier element fails it, `find?`
returns that element. -/
theorem find_first_of_pred {α : Type} (pred : α → Bool) :
    ∀ (l : List α) (i : Nat) (p : α), l.get? i = Option.some p → pred p = true →
      (∀ j, j < i → ∀ x, l.get? j = Option.some x → pred x = false) →
      l.find? pred = Option.some p
  | [], i, p, h, _, _ => by simp at h
  | a :: l, 0, p, h, hp, _ => by
    simp at h
    subst h
    simp [List.find?, hp]
  | a :: l, i + 1, p, h, hp, hmin => by
    have ha : pred a = false := hmin 0 (Nat.succ_pos i) a rfl
    simp only [List.find?, ha]
    exact find_first_of_pred pred l i p h hp
      (fun j hj x hx => hmin (j + 1) (Nat.succ_lt_succ hj) x hx)

/-- C3: specialty inference is a total pure function of the path string
whose value always lies in the closed twelve-tag specialty set; it returns
the lower-casing of the first path segment whose lower-casing is in the
set (matching case-insensitively), and `"general"` when no segment
matches. -/
theorem c3_specialty_inference (path : String) :
    get_specialty_from_path path ∈ specialties ∧
    ((∀ p ∈ pathParts path, lowerString p ∉ specialties) →
      get_specialty_from_path path = "general") ∧
    (∀ i : Nat, ∀ p : String, (pathParts path).get? i = Option.some p →
      lowerString p ∈ specialties →
      (∀ j, j < i → ∀ q, (pathParts path).get? j = Option.some q →
        lowerString q ∉ specialties) →
      get_specialty_from_path path = lowerString p) := by
  refine ⟨?_, ?_, ?_⟩
  · unfold get_specialty_from_path
    cases hf : (pathParts path).find? (fun p => specialties.contains (lowerString p)) with
    | none => decide
    | some p =>
      have hp := List.find?_some hf
      exact List.mem_of_elem_eq_true hp
  · intro h
    unfold get_specialty_from_path
    have hnone : (pathParts path).find? (fun p => specialties.contains (lowerString p))
        = Option.none := by
      rw [List.find?_eq_none]
      intro x hx
      simp only [Bool.not_eq_true]
      cases hc : specialties.contains (lowerString x) with
      | false => rfl
      | true => exact absurd (List.mem_of_elem_eq_true hc) (h x hx)
    rw [hnone]
  · intro i p hi hp hmin
    unfold get_specialty_from_path
    have hfind := find_first_of_pred (fun q => specialties.contains (lowerString q))
      (pathParts path) i p hi (List.elem_eq_true_of_mem hp)
      (fun j hj x hx => by
        simp only []
        cases hc : specialties.contains (lowerString x) with
        | false => rfl
        | true => exact absurd (List.mem_of_elem_eq_true hc) (hmin j hj x hx))
    rw [hfind]

/-- C3 witness: concrete evaluation of the inference on a mixed-case path. -/
theorem c3_specialty_inference_witness :
    get_specialty_from_path "data/guidelines/Cardiology/acs.pdf" ∈ specialties ∧
    get_specialty_from_path "data/guidelines/Cardiology/acs.pdf" = "cardiology" :=
  ⟨(c3_specialty_inference "data/guidelines/Cardiology/acs.pdf").1, by decide⟩

/-- C1: whenever the filtered similarity search over the loaded vector
store returns zero results, searching with the specialty filter returns
exactly what the unfiltered search returns. -/
theorem c1_filter_fallback (svc : GuidelinesService) (q : String) (k : Nat)
    (s : String)
    (h : ∀ vs, svc.vectorstore = Option.some vs →
      vs.similarity_search q k (Option.some s) = Except.ok []) :
    search_guidelines svc q k (Option.some s) = search_guidelines svc q k Option.none := by
  unfold search_guidelines
  cases hv : svc.vectorstore with
  | none => rfl
  | some vs =>
    have hfil := h vs hv
    unfold search_body
    by_cases hs : s = ""
    · subst hs
      simp [isTruthy]
    · simp [isTruthy, hs, hfil]

/-- A store whose filtered search finds nothing but whose unfiltered
search finds one document. -/
def storeW1 : VectorStore :=
  { entries := [{ page_content := "administer aspirin for chest pain"
                , metadata := { source_file := Option.some "acs.txt"
                              , page := Option.none
                              , specialty := Option.some "cardiology" } }]
  , similarity_search := fun _ _ fs =>
      match fs with
      | Option.some _ => Except.ok []
      | Option.none => Except.ok
          [{ page_content := "administer aspirin for chest pain"
           , metadata := { source_file := Option.some "acs.txt"
                         , page := Option.none
                         , specialty := Option.some "cardiology" } }] }

/-- A service holding `storeW1`. -/
def svcW1 : GuidelinesService :=
  { mkService true with vectorstore := Option.some storeW1, initialized := true }

/-- C1 witness: the fallback at a concrete service where the filter is too
strict. -/
theorem c1_filter_fallback_witness :
    search_guidelines svcW1 "chest pain treatment" 3 (Option.some "neurology") =
      search_guidelines svcW1 "chest pain treatment" 3 Option.none :=
  c1_filter_fallback svcW1 "chest pain treatment" 3 "neurology"
    (fun vs hvs => by
      injection hvs with h2
      subst h2
      rfl)

/-- C2: `search_guidelines` always returns normally: some list is always
produced; when no vector store is built or loaded the list is empty; and
when the underlying query raises (in either the filtered attempt or the
fallback), the exception is absorbed into an empty list. -/
theorem c2_search_total (svc : GuidelinesService) (q : String) (k : Nat)
    (fs : Option String) :
    (∃ l, search_guidelines svc q k fs = Except.ok l) ∧
    (svc.vectorstore = Option.none → search_guidelines svc q k fs = Except.ok []) ∧
    (∀ vs e, svc.vectorstore = Option.some vs → search_body vs q k fs = Except.error e →
      search_guidelines svc q k fs = Except.ok []) := by
  refine ⟨?_, ?_, ?_⟩
  · cases hv : svc.vectorstore with
    | none => exact ⟨[], by simp [search_guidelines, hv]⟩
    | some vs =>
      cases hb : search_body vs q k fs with
      | ok docs =>
        exact ⟨docs.map toResultEntry, by simp [search_guidelines, hv, hb]⟩
      | error e => exact ⟨[], by simp [search_guidelines, hv, hb]⟩
  · intro hv
    simp [search_guidelines, hv]
  · intro vs e hv hb
    simp [search_guidelines, hv, hb]

/-- An empty vector store. -/
def emptyStore : VectorStore :=
  { entries := [], similarity_search := fun _ _ _ => Except.ok [] }

/-- A trivial external world: no persisted index, no source files. -/
def env0 : Env :=
  { vector_store_exists := false
  , files := []
  , load_file := fun _ => Except.ok []
  , chroma_open := emptyStore
  , chroma_from_documents := fun ds =>
      { entries := ds, similarity_search := fun _ _ _ => Except.ok [] }
  , split_documents := fun ds => ds }

/-- C4: with the optional dependency unavailable and no store loaded,
initialization completes without error, sets the `initialized` flag, keeps
the store absent, and every subsequent search returns the empty list. -/
theorem c4_degraded_mode (env : Env) (svc : GuidelinesService)
    (hrag : svc.rag_available = false) (hvs : svc.vectorstore = Option.none) :
    ∃ svc2, initService env svc = Except.ok svc2 ∧
      svc2.initialized = true ∧ svc2.vectorstore = Option.none ∧
      ∀ q k fs, search_guidelines svc2 q k fs = Except.ok [] := by
  by_cases hi : svc.initialized
  · exact ⟨svc, by simp [initService, hi], hi, hvs,
      fun q k fs => by simp [search_guidelines, hvs]⟩
  · refine ⟨{ svc with initialized := true }, ?_, rfl, hvs, ?_⟩
    · simp [initService, hi, hrag]
    · intro q k fs
      simp [search_guidelines, hvs]

/-- C4 witness: a freshly constructed service in the degraded mode. -/
theorem c4_degraded_mode_witness :
    (mkService false).rag_available = false ∧
    (∃ svc2, initService env0 (mkService false) = Except.ok svc2 ∧
      svc2.initialized = true ∧ svc2.vectorstore = Option.none ∧
      ∀ q k fs, search_guidelines svc2 q k fs = Except.ok []) :=
  ⟨rfl, c4_degraded_mode env0 (mkService false) rfl rfl⟩

/-- Every normal completion of the initializer leaves the flag set. -/
theorem init_sets_initialized (env : Env) (svc svc2 : GuidelinesService)
    (h : initService env svc = Except.ok svc2) : svc2.initialized = true := by
  unfold initService at h
  by_cases hi : svc.initialized
  · simp [hi] at h
    rw [← h]
    exact hi
  · by_cases hr : svc.rag_available = false
    · simp [hi, hr] at h
      rw [← h]
    · rw [if_neg hi, if_neg hr] at h
      cases hl : load_guidelines env { svc with embeddings := Option.some hfEmbeddings } with
      | error e =>
        rw [hl] at h
        simp at h
      | ok s =>
        rw [hl] at h
        simp at h
        rw [← h]

/-- C7: a second call to the initializer, after any completed first call,
returns the state unchanged and performs no build or load (the result is
determined before any environment access, for every second environment). -/
theorem c7_idempotent_init (env env2 : Env) (svc svc2 : GuidelinesService)
    (h : initService env svc = Except.ok svc2) :
    initService env2 svc2 = Except.ok svc2 := by
  have hf := init_sets_initialized env svc svc2 h
  simp [initService, hf]

/-- The state after initializing a fresh degraded-mode service. -/
def svcInit0 : GuidelinesService := { mkService false with initialized := true }

/-- C7 witness: two successive calls on a fresh service. -/
theorem c7_idempotent_init_witness :
    initService env0 (mkService false) = Except.ok svcInit0 ∧
    initService env0 svcInit0 = Except.ok svcInit0 :=
  ⟨rfl, c7_idempotent_init env0 env0 (mkService false) svcInit0 rfl⟩

/-- C6: when a persisted index exists at the vector-store path, a fresh
initialization loads exactly that store (whose entries are then what
search sees), and the outcome is the same whatever files sit in the
source directory: raw documents are not re-ingested. -/
theorem c6_persistence_precedence (env : Env) (h : env.vector_store_exists = true) :
    initService env (mkService true) = Except.ok
      { mkService true with
        embeddings := Option.some hfEmbeddings
      , vectorstore := Option.some env.chroma_open
      , initialized := true } ∧
    ∀ files2, initService { env with files := files2 } (mkService true) = Except.ok
      { mkService true with
        embeddings := Option.some hfEmbeddings
      , vectorstore := Option.some env.chroma_open
      , initialized := true } := by
  constructor
  · simp [initService, mkService, load_guidelines, h]
  · intro files2
    simp [initService, mkService, load_guidelines, h]

/-- The single entry of a persisted index used to witness C6. -/
def docPersisted : Document :=
  { page_content := "persisted chunk"
  , metadata := { source_file := Option.some "old.txt"
                , page := Option.none
                , specialty := Option.some "general" } }

/-- A persisted store with one entry. -/
def storePersisted : VectorStore :=
  { entries := [docPersisted]
  , similarity_search := fun _ _ _ => Except.ok [docPersisted] }

/-- A world with a persisted one-entry index and two newer source files. -/
def envPersisted : Env :=
  { vector_store_exists := true
  , files := [{ path := "data/guidelines/new1.txt", name := "new1.txt" },
              { path := "data/guidelines/new2.txt", name := "new2.txt" }]
  , load_file := fun f =>
      Except.ok [{ page_content := "new document"
                 , metadata := { source_file := Option.some f.name
                               , page := Option.none
                               , specialty := Option.none } }]
  , chroma_open := storePersisted
  , chroma_from_documents := fun ds =>
      { entries := ds, similarity_search := fun _ _ _ => Except.ok [] }
  , split_documents := fun ds => ds }

/-- C6 witness: one persisted entry, two source documents, and the loaded
store is the persisted one. -/
theorem c6_persistence_precedence_witness :
    envPersisted.vector_store_exists = true ∧
    initService envPersisted (mkService true) = Except.ok
      { mkService true with
        embeddings := Option.some hfEmbeddings
      , vectorstore := Option.some envPersisted.chroma_open
      , initialized := true } :=
  ⟨rfl, (c6_persistence_precedence envPersisted rfl).1⟩

/-- C5: the recommendation query is the condition followed by
`" treatment protocol guideline"`, with `" elderly"` appended exactly when
the context's age exceeds 65 and the listed conditions appended as extra
terms; the search runs with `k = 3`, and an empty search result yields a
message containing `"No guidelines found"` together with the empty result
list (while a non-empty result is passed through unchanged). -/
theorem c5_protocol_recommendation (env : Env) (svc : GuidelinesService)
    (condition : String) (p : PatientContext) (specialty : Option String)
    (hinit : svc.initialized = true) :
    build_query condition (Option.some p) =
      condition ++ " treatment protocol guideline"
        ++ (if 65 < p.age.getD 0 then " elderly" else "")
        ++ (if p.conditions.isEmpty then ""
            else " " ++ String.intercalate " " p.conditions) ∧
    (search_guidelines svc (build_query condition (Option.some p)) 3 specialty =
        Except.ok [] →
      get_protocol_recommendation env svc condition (Option.some p) specialty =
        Except.ok (svc, "No guidelines found for \x27" ++ condition ++ "\x27.", []) ∧
      ∃ a b, "No guidelines found for \x27" ++ condition ++ "\x27." =
        a ++ "No guidelines found" ++ b) ∧
    (∀ gs, search_guidelines svc (build_query condition (Option.some p)) 3 specialty =
        Except.ok gs → gs ≠ [] →
      ∃ text, get_protocol_recommendation env svc condition (Option.some p) specialty =
        Except.ok (svc, text, gs)) := by
  refine ⟨?_, ?_, ?_⟩
  · unfold build_query
    by_cases ha : 65 < p.age.getD 0 <;> by_cases hc : p.conditions.isEmpty <;>
      simp [ha, hc, String.append_assoc, String.append_empty] <;>
      (try congr 1)
  · intro hs
    constructor
    · unfold get_protocol_recommendation
      simp [hinit, hs]
    · refine ⟨"", " for \x27" ++ (condition ++ "\x27."), ?_⟩
      have hlit : "No guidelines found for \x27" =
          "No guidelines found" ++ " for \x27" := rfl
      rw [hlit, String.append_assoc, String.append_assoc]
      rfl
  · intro gs hs hne
    refine ⟨formatRecommendation condition (Option.some p) gs, ?_⟩
    unfold get_protocol_recommendation
    simp [hinit, hs, hne]

/-- An initialized service with no vector store. -/
def svcW5 : GuidelinesService := { mkService true with initialized := true }

/-- The patient context of the end-to-end empty-corpus scenario. -/
def pcW5 : PatientContext := { age := Option.some 70, conditions := [] }

/-- C5 witness: the sepsis recommendation against an empty corpus. -/
theorem c5_protocol_recommendation_witness :
    get_protocol_recommendation env0 svcW5 "sepsis" (Option.some pcW5) Option.none =
      Except.ok (svcW5, "No guidelines found for \x27sepsis\x27.", []) :=
  (((c5_protocol_recommendation env0 svcW5 "sepsis" pcW5 Option.none rfl).2.1) rfl).1

/-- A source file whose loader raises (a malformed PDF). -/
def fileBad : FileEntry := { path := "data/guidelines/bad.pdf", name := "bad.pdf" }

/-- A well-formed source file sitting after the malformed one. -/
def fileGood : FileEntry := { path := "data/guidelines/good.txt", name := "good.txt" }

/-- The document the well-formed file parses to. -/
def docGood : Document :=
  { page_content := "check vital signs routinely"
  , metadata := { source_file := Option.none
                , page := Option.none
                , specialty := Option.none } }

/-- A world with no persisted index and one malformed source file followed
by one well-formed source file. -/
def envBadFile : Env :=
  { vector_store_exists := false
  , files := [fileBad, fileGood]
  , load_file := fun f =>
      if f.name = "bad.pdf" then Except.error "malformed PDF"
      else Except.ok [docGood]
  , chroma_open := emptyStore
  , chroma_from_documents := fun ds =>
      { entries := ds, similarity_search := fun _ _ _ => Except.ok [] }
  , split_documents := fun ds => ds }

/-- C8: the ingestion loop has no per-file exception handler, so one
malformed file aborts the whole index build — initialization propagates
the loader's exception even though the remaining file on its own would
have been ingested and tagged. -/
theorem c8_ingestion_aborts :
    initService envBadFile (mkService true) = Except.error "malformed PDF" ∧
    loadDocs envBadFile [fileGood] =
      Except.ok [{ page_content := "check vital signs routinely"
                 , metadata := { source_file := Option.some "good.txt"
                               , page := Option.none
                               , specialty := Option.some "general" } }] :=
  ⟨rfl, rfl⟩

/-- A stored document whose metadata carries no `source_file`. -/
def docNoSource : Document :=
  { page_content := "guideline text"
  , metadata := { source_file := Option.none
                , page := Option.none
                , specialty := Option.none } }

/-- A store returning the source-less document. -/
def storeNoSource : VectorStore :=
  { entries := [docNoSource]
  , similarity_search := fun _ _ _ => Except.ok [docNoSource] }

/-- A service holding `storeNoSource`. -/
def svcNoSource : GuidelinesService :=
  { mkService true with vectorstore := Option.some storeNoSource, initialized := true }

/-- C9 counterexample: when the stored metadata has no source, the
returned `source` field is Python `None`, not the string `"Unknown"`. -/
theorem c9_source_not_unknown :
    search_guidelines svcNoSource "sepsis" 3 Option.none =
      Except.ok [{ content := "guideline text"
                 , source := PyVal.none
                 , page := PyVal.str "N/A"
                 , specialty := PyVal.str "general" }] ∧
    PyVal.none ≠ PyVal.str "Unknown" :=
  ⟨rfl, by decide⟩

/-- C9 (amended): every returned entry comes from a document of the
underlying search; its `content` is that document's text, its `source` is
the stored filename, or `None` when the stored metadata has no source,
its `page` is the stored page or `"N/A"` when absent, and its `specialty`
is the stored tag, defaulting to `"general"` when absent. -/
theorem c9_result_shape (svc : GuidelinesService) (vs : VectorStore) (q : String)
    (k : Nat) (fs : Option String) (entries : List ResultEntry) (e : ResultEntry)
    (hvs : svc.vectorstore = Option.some vs)
    (h : search_guidelines svc q k fs = Except.ok entries) (he : e ∈ entries) :
    ∃ docs, search_body vs q k fs = Except.ok docs ∧
      ∃ d ∈ docs,
        e.content = d.page_content ∧
        (∀ s, d.metadata.source_file = Option.some s → e.source = PyVal.str s) ∧
        (d.metadata.source_file = Option.none → e.source = PyVal.none) ∧
        (∀ n, d.metadata.page = Option.some n → e.page = PyVal.int n) ∧
        (d.metadata.page = Option.none → e.page = PyVal.str "N/A") ∧
        (∀ s, d.metadata.specialty = Option.some s → e.specialty = PyVal.str s) ∧
        (d.metadata.specialty = Option.none → e.specialty = PyVal.str "general") := by
  simp only [search_guidelines, hvs] at h
  cases hb : search_body vs q k fs with
  | error er =>
    rw [hb] at h
    simp at h
    subst h
    simp at he
  | ok docs =>
    rw [hb] at h
    simp at h
    subst h
    obtain ⟨d, hd, hde⟩ := List.mem_map.mp he
    subst hde
    refine ⟨docs, rfl, d, hd, rfl, ?_, ?_, ?_, ?_, ?_, ?_⟩
    · intro s hs
      simp [toResultEntry, hs]
    · intro hs
      simp [toResultEntry, hs]
    · intro n hn
      simp [toResultEntry, hn]
    · intro hn
      simp [toResultEntry, hn]
    · intro s hs
      simp [toResultEntry, hs]
    · intro hs
      simp [toResultEntry, hs]

/-- The entry the source-less document maps to. -/
def entryNoSource : ResultEntry :=
  { content := "guideline text"
  , source := PyVal.none
  , page := PyVal.str "N/A"
  , specialty := PyVal.str "general" }

/-- C9 witness: the amended shape at the concrete source-less store. -/
theorem c9_result_shape_witness :
    ∃ docs, search_body storeNoSource "sepsis" 3 Option.none = Except.ok docs ∧
      ∃ d ∈ docs,
        entryNoSource.content = d.page_content ∧
        (∀ s, d.metadata.source_file = Option.some s →
          entryNoSource.source = PyVal.str s) ∧
        (d.metadata.source_file = Option.none → entryNoSource.source = PyVal.none) ∧
        (∀ n, d.metadata.page = Option.some n → entryNoSource.page = PyVal.int n) ∧
        (d.metadata.page = Option.none → entryNoSource.page = PyVal.str "N/A") ∧
        (∀ s, d.metadata.specialty = Option.some s →
          entryNoSource.specialty = PyVal.str s) ∧
        (d.metadata.specialty = Option.none →
          entryNoSource.specialty = PyVal.str "general") :=
  c9_result_shape svcNoSource storeNoSource "sepsis" 3 Option.none
    [entryNoSource] entryNoSource rfl rfl (by simp)

/-- A source file with an upper-case extension under a cardiology
subdirectory. -/
def fileUpper : FileEntry :=
  { path := "data/guidelines/cardiology/GUIDE.TXT", name := "GUIDE.TXT" }

/-- The document `GUIDE.TXT` parses to. -/
def docUpper : Document :=
  { page_content := "administer aspirin for chest pain"
  , metadata := { source_file := Option.none
                , page := Option.none
                , specialty := Option.none } }

/-- A world whose only source file is `GUIDE.TXT`, with no persisted
index. -/
def envUpper : Env :=
  { vector_store_exists := false
  , files := [fileUpper]
  , load_file := fun _ => Except.ok [docUpper]
  , chroma_open := emptyStore
  , chroma_from_documents := fun ds =>
      { entries := ds, similarity_search := fun _ _ _ => Except.ok [] }
  , split_documents := fun ds => ds }

/-- C10: the loader selects files by case-insensitive extension while
`get_statistics` counts basenames by case-sensitive `endswith`, so
`GUIDE.TXT` is ingested into the built index (one tagged entry) yet the
statistics report zero documents and no specialties. -/
theorem c10_stats_extension_mismatch :
    lowerString (fileSuffix "GUIDE.TXT") = ".txt" ∧
    strEndsWith "GUIDE.TXT" ".pdf" = false ∧
    strEndsWith "GUIDE.TXT" ".txt" = false ∧
    (∃ svc, initService envUpper (mkService true) = Except.ok svc ∧
      (∃ vs, svc.vectorstore = Option.some vs ∧
        vs.entries =
          [{ page_content := "administer aspirin for chest pain"
           , metadata := { source_file := Option.some "GUIDE.TXT"
                         , page := Option.none
                         , specialty := Option.some "cardiology" } }]) ∧
      get_statistics envUpper svc = StatsResult.active 0 [] []) := by
  refine ⟨by decide, by decide, by decide, ?_⟩
  exact ⟨_, rfl, ⟨_, rfl, rfl⟩, rfl⟩

/-- C2 witness: an uninitialized service searches to the empty list. -/
theorem c2_search_total_witness :
    search_guidelines (mkService true) "sepsis protocol" 3 Option.none =
      Except.ok [] :=
  (c2_search_total (mkService true) "sepsis protocol" 3 Option.none).2.1 rfl
